import Mathlib

/-
Verification of the roku ECP client library (src/src/lib.rs).

The library is a thin client over external collaborators (reqwest HTTP
transport, ssdp discovery transport, the url crate, serde_xml_rs decoding).
The embedding below translates the repository's own code directly; the
external collaborators are either abstracted as function parameters
(HTTP transport, SSDP response stream, URL parsing in discovery) or, where a
claim is about the collaborator's contract itself, modelled from the spec
and marked as such in the doc comment.
-/

namespace Roku

/-- Payload of a reqwest transport error, abstracted as a message string. -/
def ReqError := String

instance : DecidableEq ReqError := fun a b => String.decEq a b

/-- Payload of an ssdp_client error, abstracted as a message string. -/
def SSDPError := String

instance : DecidableEq SSDPError := fun a b => String.decEq a b

/-- Payload of a url::ParseError, abstracted as a message string. -/
def ParseError := String

instance : DecidableEq ParseError := fun a b => String.decEq a b

/-- Payload of a serde_xml_rs decode error, abstracted as a message string. -/
def XMLError := String

instance : DecidableEq XMLError := fun a b => String.decEq a b

/-- Embeds `enum Error` of src/src/lib.rs: the library's error taxonomy.
`Request` is the TransportError of the spec for HTTP, `SSDPRequest` for
discovery, `URLParse` the AddressParseError, `XMLParse` the DecodeError and
`Argument` the ArgumentError. -/
inductive Error where
  | Request : ReqError → Error
  | SSDPRequest : SSDPError → Error
  | URLParse : ParseError → Error
  | XMLParse : XMLError → Error
  | Argument : String → Error
deriving DecidableEq

/-- Modelled from the spec: the external url crate's URL value, reduced to
the parts the spec constrains (scheme, host, optional port, path). The
library only ever constructs URLs and joins relative paths onto them. -/
structure Url where
  scheme : String
  host : String
  port : Option Nat
  path : String
deriving DecidableEq

/-- Modelled from the spec: relative-path resolution of the url crate as used
by the operations (joining a relative path reference onto a base address).
Per RFC 3986 merge, the last segment of the base path is replaced by the
relative reference; scheme, host and port are untouched. -/
def Url.join (u : Url) (rel : String) : Url :=
  let keep : String := ⟨(u.path.data.reverse.dropWhile (fun c => c != '/')).reverse⟩
  { u with path := keep ++ rel }

/-- Modelled from the spec: rendering a URL back to its string form. -/
def Url.render (u : Url) : String :=
  u.scheme ++ "://" ++ u.host ++
    (match u.port with
     | some p => ":" ++ toString p
     | none => "") ++ u.path

/-- Embeds `enum Key` of src/src/lib.rs: the remote-control key vocabulary,
a closed set of named keys plus the open literal-character variant. -/
inductive Key where
  | Back
  | Backspace
  | ChannelDown
  | ChannelUp
  | Down
  | Enter
  | FindRemote
  | Fwd
  | Home
  | Info
  | InputAV1
  | InputHDMI1
  | InputHDMI2
  | InputHDMI3
  | InputHDMI4
  | InputTuner
  | InstantReplay
  | Left
  | Play
  | PowerOff
  | Rev
  | Right
  | Search
  | Select
  | Up
  | VolumeDown
  | VolumeMute
  | VolumeUp
  | Lit : Char → Key
deriving DecidableEq

/-- Embeds `impl fmt::Display for Key` of src/src/lib.rs: the canonical wire
token of each key. -/
def Key.toString : Key → String
  | .Back => "Back"
  | .Backspace => "Backspace"
  | .ChannelDown => "ChannelDown"
  | .ChannelUp => "ChannelUp"
  | .Down => "Down"
  | .Enter => "Enter"
  | .FindRemote => "FindRemote"
  | .Fwd => "Fwd"
  | .Home => "Home"
  | .Info => "Info"
  | .InputAV1 => "InputAV1"
  | .InputHDMI1 => "InputHDMI1"
  | .InputHDMI2 => "InputHDMI2"
  | .InputHDMI3 => "InputHDMI3"
  | .InputHDMI4 => "InputHDMI4"
  | .InputTuner => "InputTuner"
  | .InstantReplay => "InstantReplay"
  | .Left => "Left"
  | .Play => "Play"
  | .PowerOff => "PowerOff"
  | .Rev => "Rev"
  | .Right => "Right"
  | .Search => "Search"
  | .Select => "Select"
  | .Up => "Up"
  | .VolumeDown => "VolumeDown"
  | .VolumeMute => "VolumeMute"
  | .VolumeUp => "VolumeUp"
  | .Lit c => "Lit_" ++ c.toString

/-- The named (non-literal) constructors of `enum Key`, in source order. -/
def Key.named : List Key :=
  [.Back, .Backspace, .ChannelDown, .ChannelUp, .Down, .Enter, .FindRemote,
   .Fwd, .Home, .Info, .InputAV1, .InputHDMI1, .InputHDMI2, .InputHDMI3,
   .InputHDMI4, .InputTuner, .InstantReplay, .Left, .Play, .PowerOff, .Rev,
   .Right, .Search, .Select, .Up, .VolumeDown, .VolumeMute, .VolumeUp]

/-- Embeds `enum SearchType` of src/src/lib.rs. -/
inductive SearchType where
  | Movie
  | TvShow
  | Person
  | Channel
  | Game
deriving DecidableEq

/-- Embeds the `match search_type` serialization inside `Search::build`. -/
def SearchType.toString : SearchType → String
  | .Movie => "movie"
  | .TvShow => "tv-show"
  | .Person => "person"
  | .Channel => "channel"
  | .Game => "game"

/-- Rust's `bool::to_string`. -/
def boolString (b : Bool) : String := if b then "true" else "false"

/-- Embeds `struct Search` of src/src/lib.rs: the search parameter builder's
state. -/
structure Search where
  keyword : String
  launch : Option Bool
  match_any : Option Bool
  providers : Option (List String)
  provider_ids : Option (List String)
  search_type : Option SearchType
  season : Option Nat
  show_unavailable : Option Bool
  title : Option String
  tmsid : Option String
deriving DecidableEq

/-- Embeds `Search::new` of src/src/lib.rs. -/
def Search.new (keyword : String) : Search :=
  { keyword := keyword
    launch := none
    match_any := none
    providers := none
    provider_ids := none
    search_type := none
    season := none
    show_unavailable := none
    title := none
    tmsid := none }

/-- One optional segment of `Search::build`: the pair pushed when the field
is set, nothing otherwise. -/
def buildOpt {α : Type} (key : String) (f : α → String) : Option α → List (String × String)
  | some a => [(key, f a)]
  | none => []

/-- Embeds `Search::build` of src/src/lib.rs: the sequence of `ret.push`
calls, one concatenated segment per optional field, in source order. List
fields serialize by `join(",")`, booleans by `to_string`, the season number
by its decimal form. -/
def Search.build (s : Search) : List (String × String) :=
  [("keyword", s.keyword)]
    ++ buildOpt "launch" boolString s.launch
    ++ buildOpt "match-any" boolString s.match_any
    ++ buildOpt "provider-id" (String.intercalate ",") s.provider_ids
    ++ buildOpt "provider" (String.intercalate ",") s.providers
    ++ buildOpt "type" SearchType.toString s.search_type
    ++ buildOpt "season" (fun n => toString n) s.season
    ++ buildOpt "show-unavailable" boolString s.show_unavailable
    ++ buildOpt "title" id s.title
    ++ buildOpt "tmsid" id s.tmsid

/-- Embeds `Search::launch` of src/src/lib.rs. -/
def Search.setLaunch (s : Search) (launch : Bool) : Search :=
  { s with launch := some launch }

/-- Embeds `Search::match_any` of src/src/lib.rs. -/
def Search.setMatchAny (s : Search) (match_any : Bool) : Search :=
  { s with match_any := some match_any }

/-- Embeds `Search::provider` of src/src/lib.rs. Note the source's `None`
arm creates an empty list and never pushes the given `provider`. -/
def Search.provider (s : Search) (provider : String) : Search :=
  match s.providers with
  | some providers => { s with providers := some (providers ++ [provider]) }
  | none => { s with providers := some [] }

/-- Embeds `Search::provider_id` of src/src/lib.rs. Note the source's `None`
arm creates an empty list and never pushes the given `provider_id`. -/
def Search.provider_id (s : Search) (provider_id : String) : Search :=
  match s.provider_ids with
  | some provider_ids =>
      { s with provider_ids := some (provider_ids ++ [provider_id]) }
  | none => { s with provider_ids := some [] }

/-- Embeds `Search::search_type` of src/src/lib.rs. -/
def Search.setSearchType (s : Search) (search_type : SearchType) : Search :=
  { s with search_type := some search_type }

/-- Embeds `Search::season` of src/src/lib.rs. -/
def Search.setSeason (s : Search) (season : Nat) : Search :=
  { s with season := some season }

/-- Embeds `Search::show_unavailable` of src/src/lib.rs. -/
def Search.setShowUnavailable (s : Search) (show_unavailable : Bool) : Search :=
  { s with show_unavailable := some show_unavailable }

/-- Embeds `Search::title` of src/src/lib.rs. -/
def Search.setTitle (s : Search) (title : String) : Search :=
  { s with title := some title }

/-- Embeds `Search::tmsid` of src/src/lib.rs. -/
def Search.setTmsid (s : Search) (tmsid : String) : Search :=
  { s with tmsid := some tmsid }

/-- Embeds `struct App` of src/src/lib.rs: optional identifier, required
display name, optional version. -/
structure App where
  id : Option String
  name : String
  version : Option String
deriving DecidableEq

/-- HTTP method of a request handed to the transport. -/
inductive Method where
  | get
  | post
deriving DecidableEq

/-- A request as the library hands it to the reqwest transport: method,
resolved URL, attached query parameters. -/
structure Request where
  method : Method
  url : Url
  query : List (String × String)
deriving DecidableEq

/-- A transport response: status code and body text. The command operations
never inspect either field. -/
structure Response where
  status : Nat
  body : String
deriving DecidableEq

/-- The external reqwest HTTP transport, abstracted as a function from the
request to either a transport failure or a response. -/
def HttpTransport := Request → Except ReqError Response

/-- Embeds `struct Device` of src/src/lib.rs: the device handle, identified
by its base URL. The reqwest `Client` it owns is the abstracted transport
and is passed to each operation instead. -/
structure Device where
  url : Url
deriving DecidableEq

/-- Result of a command operation together with the list of requests the
operation handed to the transport, in order. -/
def OpResult := Except Error Unit × List Request

/-- Embeds `Device::keydown` of src/src/lib.rs: join `keydown/<token>` onto
the base URL, POST it, ignore the response. -/
def Device.keydown (d : Device) (tr : HttpTransport) (key : Key) : OpResult :=
  let req : Request := ⟨.post, d.url.join ("keydown/" ++ key.toString), []⟩
  match tr req with
  | .error e => (.error (.Request e), [req])
  | .ok _ => (.ok (), [req])

/-- Embeds `Device::keyup` of src/src/lib.rs. -/
def Device.keyup (d : Device) (tr : HttpTransport) (key : Key) : OpResult :=
  let req : Request := ⟨.post, d.url.join ("keyup/" ++ key.toString), []⟩
  match tr req with
  | .error e => (.error (.Request e), [req])
  | .ok _ => (.ok (), [req])

/-- Embeds `Device::keypress` of src/src/lib.rs. -/
def Device.keypress (d : Device) (tr : HttpTransport) (key : Key) : OpResult :=
  let req : Request := ⟨.post, d.url.join ("keypress/" ++ key.toString), []⟩
  match tr req with
  | .error e => (.error (.Request e), [req])
  | .ok _ => (.ok (), [req])

/-- Embeds `Device::launch` of src/src/lib.rs: require `app.id`, failing
with `Error::Argument` before anything is sent; otherwise POST
`launch/<id>`. -/
def Device.launch (d : Device) (tr : HttpTransport) (app : App) : OpResult :=
  match app.id with
  | none => (.error (.Argument "app.id required"), [])
  | some app_id =>
      let req : Request := ⟨.post, d.url.join ("launch/" ++ app_id), []⟩
      match tr req with
      | .error e => (.error (.Request e), [req])
      | .ok _ => (.ok (), [req])

/-- Embeds `Device::install` of src/src/lib.rs: same precondition and shape
as `launch`, POSTing `install/<id>`. -/
def Device.install (d : Device) (tr : HttpTransport) (app : App) : OpResult :=
  match app.id with
  | none => (.error (.Argument "app.id required"), [])
  | some app_id =>
      let req : Request := ⟨.post, d.url.join ("install/" ++ app_id), []⟩
      match tr req with
      | .error e => (.error (.Request e), [req])
      | .ok _ => (.ok (), [req])

/-- An SSDP discovery response, reduced to the location string the library
reads from it. -/
structure SSDPResponse where
  location : String
deriving DecidableEq

/-- The response stream of the external ssdp_client `search` call: either the
initial call fails, or it yields a finite sequence of items, each itself
either a stream failure or a response. -/
def SSDPStream := Except SSDPError (List (Except SSDPError SSDPResponse))

/-- The collection loop of `Device::discover`: walk the response stream in
arrival order, unwrap each response, parse its location and collect one
device per address; any stream failure or parse failure aborts the whole
loop. -/
def discoverLoop (parse : String → Except ParseError Url) :
    List (Except SSDPError SSDPResponse) → Except Error (List Device)
  | [] => .ok []
  | r :: rs =>
      match r with
      | .error e => .error (.SSDPRequest e)
      | .ok response =>
          match parse response.location with
          | .error e => .error (.URLParse e)
          | .ok url => (discoverLoop parse rs).map (fun ds => ⟨url⟩ :: ds)

/-- Embeds `Device::discover` of src/src/lib.rs, with the external ssdp
search result and the url crate's parse function as parameters: a failed
search surfaces as `Error::SSDPRequest`, otherwise the stream is collected
by `discoverLoop`. -/
def Device.discover (parse : String → Except ParseError Url)
    (searchResult : SSDPStream) : Except Error (List Device) :=
  match searchResult with
  | .error e => .error (.SSDPRequest e)
  | .ok responses => discoverLoop parse responses

/-- Modelled from the spec: a decoded markup (XML) value as seen by the
serde_xml_rs collaborator — either scalar text or a node with named
children. -/
inductive XmlValue where
  | text : String → XmlValue
  | node : List (String × XmlValue) → XmlValue

/-- A markup document: the named children of the root element. -/
abbrev XmlDoc := List (String × XmlValue)

/-- First child with the given name, if any. -/
def lookupField : XmlDoc → String → Option XmlValue
  | [], _ => none
  | (k, v) :: rest, name => if k = name then some v else lookupField rest name

/-- Decode a scalar string field. -/
def decodeXmlString : XmlValue → Except XMLError String
  | .text s => .ok s
  | .node _ => .error "expected text"

/-- Decode a scalar boolean field from the tokens `true` / `false`. -/
def decodeXmlBool : XmlValue → Except XMLError Bool
  | .text "true" => .ok true
  | .text "false" => .ok false
  | .text _ => .error "expected bool"
  | .node _ => .error "expected text"

/-- Decode an unsigned numeric field from its decimal form. -/
def decodeXmlNat : XmlValue → Except XMLError Nat
  | .text s =>
      match s.toNat? with
      | some n => .ok n
      | none => .error "expected number"
  | .node _ => .error "expected text"

/-- Modelled from the spec: a required field of the decode-into-struct
primitive — a missing or malformed required field fails the decode. -/
def reqField {α : Type} (doc : XmlDoc) (name : String)
    (dec : XmlValue → Except XMLError α) : Except XMLError α :=
  match lookupField doc name with
  | none => .error ("missing field " ++ name)
  | some v => dec v

/-- Modelled from the spec: an optional field of the decode-into-struct
primitive — absence decodes to `none`, presence must decode. -/
def optField {α : Type} (doc : XmlDoc) (name : String)
    (dec : XmlValue → Except XMLError α) : Except XMLError (Option α) :=
  match lookupField doc name with
  | none => .ok none
  | some v =>
      match dec v with
      | .error e => .error e
      | .ok a => .ok (some a)

/-- Embeds `struct Buffering` of src/src/lib.rs. -/
structure Buffering where
  current : Nat
  max : Nat
  target : Nat

/-- Embeds `struct Format` of src/src/lib.rs. -/
structure Format where
  audio : String
  captions : String
  container : String
  drm : String
  video : String
  video_res : String

/-- Embeds `struct NewStream` of src/src/lib.rs. -/
structure NewStream where
  speed : String

/-- Embeds `struct Plugin` of src/src/lib.rs. -/
structure Plugin where
  bandwidth : String
  id : String
  name : String

/-- Embeds `struct StreamSegment` of src/src/lib.rs. -/
structure StreamSegment where
  bitrate : Nat
  media_sequence : Nat
  segment_type : String
  time : Nat

/-- Embeds `struct MediaPlayer` of src/src/lib.rs: required `error` flag and
`state` token, every other field optional. -/
structure MediaPlayer where
  buffering : Option Buffering
  duration : Option String
  error : Bool
  format : Option Format
  is_live : Option Bool
  new_stream : Option NewStream
  plugin : Option Plugin
  position : Option String
  runtime : Option String
  state : String
  stream_segment : Option StreamSegment

/-- Decode of the `Buffering` sub-structure. -/
def decodeBuffering : XmlValue → Except XMLError Buffering
  | .text _ => .error "expected node"
  | .node doc =>
      match reqField doc "current" decodeXmlNat with
      | .error e => .error e
      | .ok current =>
      match reqField doc "max" decodeXmlNat with
      | .error e => .error e
      | .ok mx =>
      match reqField doc "target" decodeXmlNat with
      | .error e => .error e
      | .ok target => .ok ⟨current, mx, target⟩

/-- Decode of the `Format` sub-structure. -/
def decodeFormat : XmlValue → Except XMLError Format
  | .text _ => .error "expected node"
  | .node doc =>
      match reqField doc "audio" decodeXmlString with
      | .error e => .error e
      | .ok audio =>
      match reqField doc "captions" decodeXmlString with
      | .error e => .error e
      | .ok captions =>
      match reqField doc "container" decodeXmlString with
      | .error e => .error e
      | .ok container =>
      match reqField doc "drm" decodeXmlString with
      | .error e => .error e
      | .ok drm =>
      match reqField doc "video" decodeXmlString with
      | .error e => .error e
      | .ok video =>
      match reqField doc "video_res" decodeXmlString with
      | .error e => .error e
      | .ok video_res => .ok ⟨audio, captions, container, drm, video, video_res⟩

/-- Decode of the `NewStream` sub-structure. -/
def decodeNewStream : XmlValue → Except XMLError NewStream
  | .text _ => .error "expected node"
  | .node doc =>
      match reqField doc "speed" decodeXmlString with
      | .error e => .error e
      | .ok speed => .ok ⟨speed⟩

/-- Decode of the `Plugin` sub-structure. -/
def decodePlugin : XmlValue → Except XMLError Plugin
  | .text _ => .error "expected node"
  | .node doc =>
      match reqField doc "bandwidth" decodeXmlString with
      | .error e => .error e
      | .ok bandwidth =>
      match reqField doc "id" decodeXmlString with
      | .error e => .error e
      | .ok pid =>
      match reqField doc "name" decodeXmlString with
      | .error e => .error e
      | .ok pname => .ok ⟨bandwidth, pid, pname⟩

/-- Decode of the `StreamSegment` sub-structure. -/
def decodeStreamSegment : XmlValue → Except XMLError StreamSegment
  | .text _ => .error "expected node"
  | .node doc =>
      match reqField doc "bitrate" decodeXmlNat with
      | .error e => .error e
      | .ok bitrate =>
      match reqField doc "media_sequence" decodeXmlNat with
      | .error e => .error e
      | .ok media_sequence =>
      match reqField doc "segment_type" decodeXmlString with
      | .error e => .error e
      | .ok segment_type =>
      match reqField doc "time" decodeXmlNat with
      | .error e => .error e
      | .ok time => .ok ⟨bitrate, media_sequence, segment_type, time⟩

/-- Decode of a `MediaPlayer` document, field for field after the struct in
src/src/lib.rs (no rename attribute, so wire names equal field names):
`error` and `state` are required, every other field optional. -/
def decodeMediaPlayer (doc : XmlDoc) : Except XMLError MediaPlayer :=
  match optField doc "buffering" decodeBuffering with
  | .error e => .error e
  | .ok buffering =>
  match optField doc "duration" decodeXmlString with
  | .error e => .error e
  | .ok duration =>
  match reqField doc "error" decodeXmlBool with
  | .error e => .error e
  | .ok err =>
  match optField doc "format" decodeFormat with
  | .error e => .error e
  | .ok format =>
  match optField doc "is_live" decodeXmlBool with
  | .error e => .error e
  | .ok is_live =>
  match optField doc "new_stream" decodeNewStream with
  | .error e => .error e
  | .ok new_stream =>
  match optField doc "plugin" decodePlugin with
  | .error e => .error e
  | .ok plugin =>
  match optField doc "position" decodeXmlString with
  | .error e => .error e
  | .ok position =>
  match optField doc "runtime" decodeXmlString with
  | .error e => .error e
  | .ok runtime =>
  match reqField doc "state" decodeXmlString with
  | .error e => .error e
  | .ok state =>
  match optField doc "stream_segment" decodeStreamSegment with
  | .error e => .error e
  | .ok stream_segment =>
      .ok ⟨buffering, duration, err, format, is_live, new_stream, plugin,
           position, runtime, state, stream_segment⟩

/-- The field names of `struct DeviceInfo` in src/src/lib.rs, in source
order. -/
def deviceInfoFields : List String :=
  ["advertising_id", "build_number", "can_use_wifi_extender", "clock_format",
   "country", "davinci_version", "default_device_name", "developer_enabled",
   "device_id", "ethernet_mac", "find_remote_is_possible",
   "friendly_device_name", "friendly_model_name", "grandcentral_version",
   "has_mobile_screensaver", "has_play_on_roku", "has_wifi_5g_support",
   "has_wifi_extender", "headphones_connected", "is_stick", "is_tv",
   "keyed_developer_id", "language", "locale", "model_name", "model_number",
   "model_region", "network_name", "network_type", "notifications_enabled",
   "notifications_first_use", "power_mode", "search_channels_enabled",
   "search_enabled", "secure_device", "serial_number", "software_build",
   "software_version", "support_url", "supports_audio_guide",
   "supports_ecs_microphone", "supports_ecs_textedit", "supports_ethernet",
   "supports_find_remote", "supports_private_listening", "supports_rva",
   "supports_suspend", "supports_wake_on_wlan", "time_zone",
   "time_zone_auto", "time_zone_name", "time_zone_offset", "time_zone_tz",
   "udn", "uptime", "user_device_location", "user_device_name",
   "vendor_name", "voice_search_enabled", "wifi_driver", "wifi_mac"]

/-- Serde's `rename_all = "kebab-case"` on lowercase snake_case field names:
each underscore separator becomes a hyphen. -/
def serdeKebab (s : String) : String :=
  ⟨s.data.map (fun c => if c = '_' then '-' else c)⟩

/-- The wire name each `DeviceInfo` field is decoded from, embedding the
serde attributes in src/src/lib.rs: the struct-level
`rename_all = "kebab-case"` rule, overridden for `has_wifi_5g_support` by
the explicit `rename = "has-wifi-5G-support"` alias. -/
def deviceInfoWireName (f : String) : String :=
  if f = "has_wifi_5g_support" then "has-wifi-5G-support" else serdeKebab f

/-- The fixed serialization order of the optional search filters, as the
keys appear in `Search::build`. -/
def searchKeyOrder : List String :=
  ["launch", "match-any", "provider-id", "provider", "type", "season",
   "show-unavailable", "title", "tmsid"]

/-- Whether the optional filter serialized under the given key is set in the
builder state. -/
def searchFieldSet (s : Search) : String → Bool
  | "launch" => s.launch.isSome
  | "match-any" => s.match_any.isSome
  | "provider-id" => s.provider_ids.isSome
  | "provider" => s.providers.isSome
  | "type" => s.search_type.isSome
  | "season" => s.season.isSome
  | "show-unavailable" => s.show_unavailable.isSome
  | "title" => s.title.isSome
  | "tmsid" => s.tmsid.isSome
  | _ => false

/-- A concrete device handle used to exercise the operations. -/
def sampleDevice : Device := ⟨⟨"http", "203.0.113.5", some 8060, "/"⟩⟩

/-- A transport that always fails with a connection error. -/
def failingTransport : HttpTransport := fun _ => .error "connection refused"

/-- A transport that always answers with an empty 200 response. -/
def okTransport : HttpTransport := fun _ => .ok ⟨200, ""⟩

/-- A URL parser accepting everything except the literal location `bad`. -/
def sampleParse : String → Except ParseError Url :=
  fun s =>
    if s = "bad" then .error "invalid address"
    else .ok ⟨"http", "192.168.1.7", some 8060, "/"⟩

/-- Every key is either a literal-character key or one of the named keys. -/
theorem Key.named_complete (k : Key) :
    (∃ c, k = Key.Lit c) ∨ k ∈ Key.named := by
  cases k <;> first
    | exact Or.inl ⟨_, rfl⟩
    | exact Or.inr (by decide)

/-- C1: the source's `provider` and `provider_id` setters discard the item
given to the very first call: the `None` arm installs an empty list instead
of a singleton, so after one call `build()` serializes an empty value and
after two calls only the second item survives. -/
theorem provider_setter_drops_first_item :
    ((Search.new "roku").provider "netflix").build
      = [("keyword", "roku"), ("provider", "")] ∧
    (((Search.new "roku").provider "netflix").provider "hulu").build
      = [("keyword", "roku"), ("provider", "hulu")] ∧
    ((Search.new "roku").provider_id "12").build
      = [("keyword", "roku"), ("provider-id", "")] ∧
    (((Search.new "roku").provider_id "12").provider_id "13").build
      = [("keyword", "roku"), ("provider-id", "13")] := by
  refine ⟨rfl, rfl, rfl, rfl⟩

/-- C7 counterexample: the `Key` enumeration has 28 named variants, not 27
as claimed. -/
theorem key_named_count_not_27 :
    Key.named.length ≠ 27 ∧ Key.named.length = 28 ∧ Key.named.Nodup := by
  refine ⟨by decide, by decide, by decide⟩

/-- C7 (amended to 28 named keys): the wire-token conversion is total — every
key is a literal key or one of the 28 distinct named keys — and it maps each
named key to exactly its own variant name and `Lit c` to `Lit_` followed by
the character, with no other transformation. -/
theorem key_wire_token_mapping :
    (∀ k : Key, (∃ c, k = Key.Lit c) ∨ k ∈ Key.named) ∧
    Key.named.length = 28 ∧ Key.named.Nodup ∧
    Key.toString Key.Back = "Back" ∧
    Key.toString Key.Backspace = "Backspace" ∧
    Key.toString Key.ChannelDown = "ChannelDown" ∧
    Key.toString Key.ChannelUp = "ChannelUp" ∧
    Key.toString Key.Down = "Down" ∧
    Key.toString Key.Enter = "Enter" ∧
    Key.toString Key.FindRemote = "FindRemote" ∧
    Key.toString Key.Fwd = "Fwd" ∧
    Key.toString Key.Home = "Home" ∧
    Key.toString Key.Info = "Info" ∧
    Key.toString Key.InputAV1 = "InputAV1" ∧
    Key.toString Key.InputHDMI1 = "InputHDMI1" ∧
    Key.toString Key.InputHDMI2 = "InputHDMI2" ∧
    Key.toString Key.InputHDMI3 = "InputHDMI3" ∧
    Key.toString Key.InputHDMI4 = "InputHDMI4" ∧
    Key.toString Key.InputTuner = "InputTuner" ∧
    Key.toString Key.InstantReplay = "InstantReplay" ∧
    Key.toString Key.Left = "Left" ∧
    Key.toString Key.Play = "Play" ∧
    Key.toString Key.PowerOff = "PowerOff" ∧
    Key.toString Key.Rev = "Rev" ∧
    Key.toString Key.Right = "Right" ∧
    Key.toString Key.Search = "Search" ∧
    Key.toString Key.Select = "Select" ∧
    Key.toString Key.Up = "Up" ∧
    Key.toString Key.VolumeDown = "VolumeDown" ∧
    Key.toString Key.VolumeMute = "VolumeMute" ∧
    Key.toString Key.VolumeUp = "VolumeUp" ∧
    (∀ c : Char, Key.toString (Key.Lit c) = "Lit_" ++ c.toString) := by
  refine ⟨Key.named_complete, by decide, by decide,
    rfl, rfl, rfl, rfl, rfl, rfl, rfl, rfl, rfl, rfl, rfl, rfl, rfl, rfl,
    rfl, rfl, rfl, rfl, rfl, rfl, rfl, rfl, rfl, rfl, rfl, rfl, rfl, rfl,
    fun _ => rfl⟩

/-- C9: every `DeviceInfo` field is decoded from the mechanical kebab-case
(hyphen-separated) form of its name, except `has_wifi_5g_support`, whose
wire name is the explicit alias `has-wifi-5G-support` — a name the
mechanical derivation cannot produce. All resulting wire names are
distinct. -/
theorem device_info_wire_name_mapping :
    "has_wifi_5g_support" ∈ deviceInfoFields ∧
    deviceInfoWireName "has_wifi_5g_support" = "has-wifi-5G-support" ∧
    serdeKebab "has_wifi_5g_support" ≠ "has-wifi-5G-support" ∧
    (deviceInfoFields.all fun f =>
      f == "has_wifi_5g_support" || deviceInfoWireName f == serdeKebab f) = true ∧
    (deviceInfoFields.map deviceInfoWireName).Nodup := by
  refine ⟨by decide, by decide, by decide, by decide, by decide⟩

/-- C8: a device handle based at `http://203.0.113.5:8060/` resolves the
relative path `query/device-info` to exactly
`http://203.0.113.5:8060/query/device-info`, and a relative join never
alters the base address's scheme, host or port. -/
theorem device_info_url_roundtrip :
    Url.render sampleDevice.url = "http://203.0.113.5:8060/" ∧
    Url.render (sampleDevice.url.join "query/device-info")
      = "http://203.0.113.5:8060/query/device-info" ∧
    (∀ (u : Url) (rel : String),
      (u.join rel).scheme = u.scheme ∧ (u.join rel).host = u.host ∧
        (u.join rel).port = u.port) := by
  refine ⟨rfl, rfl, fun u rel => ⟨rfl, rfl, rfl⟩⟩

/-- C2: for every device, key and transport, `keydown`, `keyup` and
`keypress` succeed exactly when the transport returns any response — the
response's status and body are never inspected — and fail with
`Error::Request` (the TransportError) carrying the transport's error
otherwise. -/
theorem key_ops_transport_errors (d : Device) (k : Key) (tr : HttpTransport) :
    ((d.keydown tr k).1 = .ok () ↔
      ∃ r, tr ⟨.post, d.url.join ("keydown/" ++ k.toString), []⟩ = .ok r) ∧
    (∀ e, tr ⟨.post, d.url.join ("keydown/" ++ k.toString), []⟩ = .error e →
      (d.keydown tr k).1 = .error (.Request e)) ∧
    ((d.keyup tr k).1 = .ok () ↔
      ∃ r, tr ⟨.post, d.url.join ("keyup/" ++ k.toString), []⟩ = .ok r) ∧
    (∀ e, tr ⟨.post, d.url.join ("keyup/" ++ k.toString), []⟩ = .error e →
      (d.keyup tr k).1 = .error (.Request e)) ∧
    ((d.keypress tr k).1 = .ok () ↔
      ∃ r, tr ⟨.post, d.url.join ("keypress/" ++ k.toString), []⟩ = .ok r) ∧
    (∀ e, tr ⟨.post, d.url.join ("keypress/" ++ k.toString), []⟩ = .error e →
      (d.keypress tr k).1 = .error (.Request e)) := by
  refine ⟨?_, ?_, ?_, ?_, ?_, ?_⟩
  · cases h : tr ⟨.post, d.url.join ("keydown/" ++ k.toString), []⟩ with
    | error e => simp [Device.keydown, h]
    | ok r => simp [Device.keydown, h]
  · intro e h; simp [Device.keydown, h]
  · cases h : tr ⟨.post, d.url.join ("keyup/" ++ k.toString), []⟩ with
    | error e => simp [Device.keyup, h]
    | ok r => simp [Device.keyup, h]
  · intro e h; simp [Device.keyup, h]
  · cases h : tr ⟨.post, d.url.join ("keypress/" ++ k.toString), []⟩ with
    | error e => simp [Device.keypress, h]
    | ok r => simp [Device.keypress, h]
  · intro e h; simp [Device.keypress, h]

/-- C2 witness: on the sample device, `keydown` through a failing transport
surfaces the transport error and `keyup` through a succeeding transport
returns unit. -/
theorem key_ops_transport_errors_witness :
    (sampleDevice.keydown failingTransport Key.Home).1
      = .error (.Request "connection refused") ∧
    (sampleDevice.keyup okTransport Key.Home).1 = .ok () := by
  constructor
  · exact (key_ops_transport_errors sampleDevice Key.Home failingTransport).2.1
      "connection refused" rfl
  · exact (key_ops_transport_errors sampleDevice Key.Home okTransport).2.2.1.mpr
      ⟨⟨200, ""⟩, rfl⟩

/-- C3: for every device, transport and app whose identifier is absent,
`launch` and `install` fail with `Error::Argument` and hand the transport
zero requests — the precondition is checked before any request exists. -/
theorem launch_install_require_app_id (d : Device) (tr : HttpTransport)
    (app : App) (h : app.id = none) :
    d.launch tr app = (.error (.Argument "app.id required"), []) ∧
    d.install tr app = (.error (.Argument "app.id required"), []) := by
  constructor
  · simp [Device.launch, h]
  · simp [Device.install, h]

/-- C3 witness: launching and installing the id-less home-screen pseudo-app
fails with the argument error and performs no transport call, even through a
transport that would answer. -/
theorem launch_install_require_app_id_witness :
    Device.launch sampleDevice okTransport ⟨none, "Roku", none⟩
      = (.error (.Argument "app.id required"), []) ∧
    Device.install sampleDevice okTransport ⟨none, "Roku", none⟩
      = (.error (.Argument "app.id required"), []) :=
  launch_install_require_app_id sampleDevice okTransport ⟨none, "Roku", none⟩ rfl

/-- C10: decoding a `MediaPlayer` document requires the boolean `error`
field in addition to `state`: any document without an `error` child fails to
decode, while a document carrying just `error` and `state` decodes with
every optional field absent. -/
theorem media_player_requires_error_field :
    (∀ doc : XmlDoc, lookupField doc "error" = none →
      ∃ e, decodeMediaPlayer doc = .error e) ∧
    decodeMediaPlayer [("error", .text "false"), ("state", .text "play")]
      = .ok ⟨none, none, false, none, none, none, none, none, none, "play",
             none⟩ := by
  constructor
  · intro doc h
    have herr : reqField doc "error" decodeXmlBool
        = .error ("missing field " ++ "error") := by
      unfold reqField; rw [h]
    unfold decodeMediaPlayer
    cases h1 : optField doc "buffering" decodeBuffering with
    | error e => exact ⟨e, rfl⟩
    | ok b1 =>
      cases h2 : optField doc "duration" decodeXmlString with
      | error e => exact ⟨e, rfl⟩
      | ok d2 => exact ⟨"missing field " ++ "error", by rw [herr]⟩
  · rfl

/-- C10 witness: a document carrying only the required `state` field fails
to decode because `error` is missing. -/
theorem media_player_requires_error_field_witness :
    ∃ e, decodeMediaPlayer [("state", .text "play")] = .error e :=
  media_player_requires_error_field.1 [("state", .text "play")] rfl

/-- The collection loop aborts with a URL parse error as soon as some
response's location fails to parse, provided the stream itself never
fails. -/
theorem discoverLoop_fail_fast (parse : String → Except ParseError Url)
    (responses : List (Except SSDPError SSDPResponse))
    (hok : ∀ r ∈ responses, ∃ resp, r = .ok resp)
    (hbad : ∃ resp e, Except.ok resp ∈ responses ∧
      parse resp.location = .error e) :
    ∃ e, discoverLoop parse responses = .error (.URLParse e) := by
  induction responses with
  | nil =>
      obtain ⟨resp, e, hmem, _⟩ := hbad
      simp at hmem
  | cons r rs ih =>
      obtain ⟨resp1, rfl⟩ := hok r (List.mem_cons_self r rs)
      cases hp : parse resp1.location with
      | error e => exact ⟨e, by simp [discoverLoop, hp]⟩
      | ok u =>
          obtain ⟨resp0, e0, hmem, hperr⟩ := hbad
          rcases List.mem_cons.mp hmem with heq | hmem0
          · have hre : resp0 = resp1 := by
              injection heq
            rw [hre, hp] at hperr
            exact absurd hperr (by simp)
          · obtain ⟨e, he⟩ :=
              ih (fun x hx => hok x (List.mem_cons_of_mem _ hx))
                ⟨resp0, e0, hmem0, hperr⟩
            exact ⟨e, by simp [discoverLoop, hp, he, Except.map]⟩

/-- C5: whenever the discovery stream completes without transport failure
but some response's location does not parse as a network address, the whole
`discover` call fails with `Error::URLParse` (the AddressParseError) and
yields no device list, regardless of the other responses. -/
theorem discover_aborts_on_bad_location
    (parse : String → Except ParseError Url)
    (responses : List (Except SSDPError SSDPResponse))
    (hok : ∀ r ∈ responses, ∃ resp, r = .ok resp)
    (hbad : ∃ resp e, Except.ok resp ∈ responses ∧
      parse resp.location = .error e) :
    ∃ e, Device.discover parse (.ok responses) = .error (.URLParse e) :=
  discoverLoop_fail_fast parse responses hok hbad

/-- C5 witness: one malformed location among otherwise valid responses
aborts a concrete discovery call with a URL parse error. -/
theorem discover_aborts_on_bad_location_witness :
    ∃ e, Device.discover sampleParse
      (.ok [.ok ⟨"http://192.168.1.7:8060/"⟩, .ok ⟨"bad"⟩])
      = .error (.URLParse e) := by
  refine discover_aborts_on_bad_location sampleParse _ ?_ ?_
  · intro r hr
    rcases List.mem_cons.mp hr with h | h
    · exact ⟨_, h⟩
    · rcases List.mem_cons.mp h with h | h
      · exact ⟨_, h⟩
      · simp at h
  · exact ⟨⟨"bad"⟩, "invalid address", by simp, rfl⟩

/-- The collection loop turns a stream of successful responses whose
locations all parse into one device per response, in arrival order. -/
theorem discoverLoop_collects (parse : String → Except ParseError Url) :
    ∀ (locs : List String) (urls : List Url),
      locs.map parse = urls.map Except.ok →
      discoverLoop parse (locs.map fun l => .ok ⟨l⟩)
        = .ok (urls.map Device.mk) := by
  intro locs
  induction locs with
  | nil =>
      intro urls h
      cases urls with
      | nil => rfl
      | cons u us => simp at h
  | cons l ls ih =>
      intro urls h
      cases urls with
      | nil => simp at h
      | cons u us =>
          simp only [List.map_cons, List.cons.injEq] at h
          obtain ⟨h1, h2⟩ := h
          simp [discoverLoop, h1, ih us h2, Except.map]

/-- C6: a discovery stream that completes with zero responses yields the
empty device list, not an error; a stream of n successful responses whose
locations all parse yields one device per response, in arrival order. -/
theorem discover_collects_in_order (parse : String → Except ParseError Url)
    (locs : List String) (urls : List Url)
    (h : locs.map parse = urls.map Except.ok) :
    Device.discover parse (.ok []) = .ok [] ∧
    Device.discover parse (.ok (locs.map fun l => .ok ⟨l⟩))
      = .ok (urls.map Device.mk) :=
  ⟨rfl, discoverLoop_collects parse locs urls h⟩

/-- C6 witness: two valid responses materialize as two devices in arrival
order, and the empty stream yields the empty list. -/
theorem discover_collects_in_order_witness :
    Device.discover sampleParse (.ok []) = .ok [] ∧
    Device.discover sampleParse
        (.ok [.ok ⟨"http://192.168.1.7:8060/"⟩, .ok ⟨"http://10.0.0.2:8060/"⟩])
      = .ok [⟨⟨"http", "192.168.1.7", some 8060, "/"⟩⟩,
             ⟨⟨"http", "192.168.1.7", some 8060, "/"⟩⟩] :=
  discover_collects_in_order sampleParse
    ["http://192.168.1.7:8060/", "http://10.0.0.2:8060/"]
    [⟨"http", "192.168.1.7", some 8060, "/"⟩,
     ⟨"http", "192.168.1.7", some 8060, "/"⟩] rfl

/-- The keys of one optional segment of `build`: the key if the field is
set, nothing otherwise. -/
theorem buildOpt_keys {α : Type} (key : String) (f : α → String)
    (o : Option α) :
    (buildOpt key f o).map Prod.fst = if o.isSome then [key] else [] := by
  cases o <;> rfl

set_option maxHeartbeats 4000000 in
/-- C4: for every builder state, `build()` starts with the `keyword` pair,
and the keys of the output are exactly `keyword` followed by the keys of the
set optional fields, in the fixed order launch, match-any, provider-id,
provider, type, season, show-unavailable, title, tmsid — independent of how
the state was reached. -/
theorem build_keyword_first_fixed_order (s : Search) :
    (s.build).head? = some ("keyword", s.keyword) ∧
    (s.build).map Prod.fst
      = "keyword" :: searchKeyOrder.filter (searchFieldSet s) := by
  obtain ⟨kw, l, m, pv, pid, st, se, su, t, tm⟩ := s
  refine ⟨rfl, ?_⟩
  cases l <;> cases m <;> cases pv <;> cases pid <;> cases st <;> cases se
    <;> cases su <;> cases t <;> cases tm <;> rfl

end Roku
